import Mathlib

/-!
Shallow embedding of `avahi_k8s_advertiser.py` (Kubernetes → Avahi advertiser).

The Python program watches Kubernetes services and maintains two artifacts:
the Avahi hosts file (one managed line per advertised LoadBalancer hostname)
and a directory of Avahi service-definition XML files (one per advertised
NodePort service).  We model the file contents, the in-memory ownership maps
and the reload flag explicitly, translating each Python function into a Lean
definition of the same name.
-/

namespace Avahi

/-- `MANAGED_HOSTS_MARKER` constant from the Python module. -/
def MANAGED_HOSTS_MARKER : String := "# Managed by k8s-avahi-advertiser"

/-- `ANNOTATION_PREFIX` constant from the Python module. -/
def ANNOTATION_PREFIX : String := "avahi.local/"

/-- Python substring test on lists of characters: `pat` occurs contiguously in `s`. -/
def listIsInfixOf (pat : List Char) : List Char → Bool
  | [] => pat.isEmpty
  | c :: rest => pat.isPrefixOf (c :: rest) || listIsInfixOf pat rest

/-- Python `pat in s` for strings: substring containment. -/
def strContains (s pat : String) : Bool :=
  listIsInfixOf pat.data s.data

/-- Python `s.startswith(pat)`. -/
def strIsPrefixOf (pat s : String) : Bool :=
  pat.data.isPrefixOf s.data

/-- Python `s[n:]` (drop the first `n` characters). -/
def strDrop (s : String) (n : Nat) : String :=
  String.mk (s.data.drop n)

/-- Python `s.lower()`. -/
def strToLower (s : String) : String :=
  String.mk (s.data.map Char.toLower)

theorem listIsInfixOf_iff (pat : List Char) (s : List Char) :
    listIsInfixOf pat s = true ↔ pat <:+: s := by
  induction s with
  | nil =>
    simp [listIsInfixOf, List.isEmpty_iff]
  | cons c rest ih =>
    simp only [listIsInfixOf, Bool.or_eq_true, ih, List.isPrefixOf_iff_prefix]
    exact Iff.symm List.infix_cons_iff

theorem strContains_iff (s pat : String) :
    strContains s pat = true ↔ pat.data <:+: s.data :=
  listIsInfixOf_iff pat.data s.data

theorem strContains_of_infix {s pat : String} (h : pat.data <:+: s.data) :
    strContains s pat = true :=
  (strContains_iff s pat).mpr h

/-- An association list used to model the Python dicts `hostname_map`,
`service_name_map` (and the services directory contents). -/
abbrev NameMap := List (String × String)

/-- Python `m[k]` lookup (`k in m` is `(mapLookup m k).isSome`). -/
def mapLookup (m : NameMap) (k : String) : Option String :=
  match m with
  | [] => none
  | (k', v') :: rest => if k' = k then some v' else mapLookup rest k

/-- Python `m[k] = v`: overwrite in place, or append when absent. -/
def mapInsert (m : NameMap) (k v : String) : NameMap :=
  match m with
  | [] => [(k, v)]
  | (k', v') :: rest => if k' = k then (k, v) :: rest else (k', v') :: mapInsert rest k v

/-- Python `del m[k]` (removes the first binding of `k`). -/
def mapErase (m : NameMap) (k : String) : NameMap :=
  match m with
  | [] => []
  | (k', v') :: rest => if k' = k then rest else (k', v') :: mapErase rest k

/-- Python `set.add`: modelled on a duplicate-free list. -/
def setAdd (l : List String) (x : String) : List String :=
  if x ∈ l then l else l ++ [x]

/-- Python `set.discard`. -/
def setDiscard (l : List String) (x : String) : List String :=
  l.filter (fun y => y ≠ x)

/-- A watched Kubernetes service, restricted to the fields the advertiser reads:
`metadata.name`, `metadata.namespace`, `metadata.annotations`, `spec.type`,
`spec.ports[*].node_port` and `status.load_balancer.ingress[*].ip`. -/
structure K8sService where
  name : String
  ns : String
  svcType : String
  ingress : List String
  ports : List (Option Nat)
  anns : List (String × String)
deriving DecidableEq, Repr

/-- `get_service_annotations`: keep keys with the `avahi.local/` prefix, stripped. -/
def get_service_annotations (s : K8sService) : List (String × String) :=
  (s.anns.filter (fun kv => strIsPrefixOf ANNOTATION_PREFIX kv.1)).map
    (fun kv => (strDrop kv.1 ANNOTATION_PREFIX.length, kv.2))

/-- Python `annotations.get(key, dflt)`. -/
def annGet (anns : List (String × String)) (key dflt : String) : String :=
  match mapLookup anns key with
  | some v => v
  | none => dflt

/-- `f"{namespace}/{name}"`, the ServiceRef key used in the ownership maps. -/
def svcKey (s : K8sService) : String := s.ns ++ "/" ++ s.name

/-- Hostname chosen by `create_host_record` / `remove_host_record`:
the `name` annotation override, else the service name. -/
def hostName (s : K8sService) : String :=
  annGet (get_service_annotations s) "name" s.name

/-- `f"{hostname}.local"`. -/
def hostFqdn (s : K8sService) : String := hostName s ++ ".local"

/-- `should_advertise` from the Python source. -/
def should_advertise (s : K8sService) : Bool :=
  if ¬ (s.svcType = "LoadBalancer" ∨ s.svcType = "NodePort") then false
  else if s.svcType = "LoadBalancer" ∧ s.ingress = [] then false
  else if strToLower (annGet s.anns (ANNOTATION_PREFIX ++ "enabled") "true") = "false" then false
  else true

/-- The advertiser's state: the hosts-file lines, the services directory
(filename → full file content), the managed sets, the two ownership maps and
the reload flag. -/
structure AdvState where
  hostsLines : List String
  serviceFiles : NameMap
  managedHosts : List String
  managedFiles : List String
  hostnameMap : NameMap
  serviceNameMap : NameMap
  needsReload : Bool
deriving DecidableEq, Repr

/-- The initial state: empty hosts file, empty services directory, clean flag. -/
def emptyState : AdvState :=
  ⟨[], [], [], [], [], [], false⟩

/-- The managed hosts-file line written by `create_host_record`:
`f"{ip} {hostname}.local {MANAGED_HOSTS_MARKER} ({namespace}/{name})\n"`. -/
def hostEntry (ip hostname ns name : String) : String :=
  ip ++ " " ++ hostname ++ ".local " ++ MANAGED_HOSTS_MARKER ++ " (" ++ ns ++ "/" ++ name ++ ")\n"

/-- The line filter shared by `create_host_record` and `remove_host_record`:
keep `line` unless `MANAGED_HOSTS_MARKER in line and hostname in line`
(Python substring containment). -/
def pruneHostname (lines : List String) (hostname : String) : List String :=
  lines.filter (fun l => !(strContains l MANAGED_HOSTS_MARKER && strContains l hostname))

/-- Conflict detection shared by `create_host_record` / `create_service_record`:
the prior owner is surfaced (for the error log) exactly when the name is
already mapped to a different ServiceRef key. -/
def conflictOn (m : NameMap) (name owner : String) : Option String :=
  match mapLookup m name with
  | some prior => if prior = owner then none else some prior
  | none => none

/-- `create_host_record`: on an assigned LoadBalancer IP, prune the managed
lines matching the hostname, append the new entry, update `managed_hosts`,
`hostname_map` and the reload flag; returns the conflict surfaced for logging
(`none` when no displacement was logged). -/
def create_host_record (st : AdvState) (s : K8sService) : AdvState × Option String :=
  match s.ingress.head? with
  | none => (st, none)
  | some ip =>
    ({ st with
        hostsLines := pruneHostname st.hostsLines (hostName s)
          ++ [hostEntry ip (hostName s) s.ns s.name]
        managedHosts := setAdd st.managedHosts (hostFqdn s)
        hostnameMap := mapInsert st.hostnameMap (hostFqdn s) (svcKey s)
        needsReload := true }, conflictOn st.hostnameMap (hostFqdn s) (svcKey s))

/-- `AvahiServiceFile` (mDNS-SD service definition), fields as in `__init__`. -/
structure AvahiServiceFile where
  name : String
  ip : String
  port : Nat
  service_type : String
  txt_records : List (String × String)
deriving DecidableEq, Repr

/-- `AvahiServiceFile.to_xml`: the generated service-group XML document. -/
def AvahiServiceFile.to_xml (f : AvahiServiceFile) : String :=
  let txtXml :=
    if f.txt_records.isEmpty then ""
    else String.intercalate "\n"
      (f.txt_records.map (fun kv => "    <txt-record>" ++ kv.1 ++ "=" ++ kv.2 ++ "</txt-record>"))
  let xml := "<?xml version=\"1.0\" standalone=\x27no\x27?>\n<!DOCTYPE service-group SYSTEM \"avahi-service.dtd\">\n<service-group>\n  <name replace-wildcards=\"yes\">" ++ f.name ++ "</name>\n  <service>\n    <type>" ++ f.service_type ++ "</type>\n    <port>" ++ toString f.port ++ "</port>\n"
  let xml := if txtXml ≠ "" then xml ++ txtXml ++ "\n" else xml
  xml ++ "  </service>\n</service-group>\n"

/-- Filename sanitisation shared by `AvahiServiceFile.filename`,
`create_service_record` and `remove_service_record`: lower-case, keep
alphanumerics and `-`/`_`, replace everything else by `-`. -/
def sanitizeName (name : String) : String :=
  String.mk ((strToLower name).data.map
    (fun c => if c.isAlphanum ∨ c = '-' ∨ c = '_' then c else '-'))

/-- Advertised name chosen by `create_service_record` / `remove_service_record`. -/
def advertiseName (s : K8sService) : String :=
  annGet (get_service_annotations s) "name" s.name

/-- `f"k8s-{safe_name}.service"`, the service-file name for a service. -/
def svcFilename (s : K8sService) : String :=
  "k8s-" ++ sanitizeName (advertiseName s) ++ ".service"

/-- TXT records extracted in `create_service_record`: stripped annotations
with a `txt-` prefix, the prefix removed. -/
def txtRecordsOf (s : K8sService) : List (String × String) :=
  ((get_service_annotations s).filter (fun kv => strIsPrefixOf "txt-" kv.1)).map
    (fun kv => (strDrop kv.1 4, kv.2))

/-- Python falsiness of the first declared port's `node_port`
(`if not port:` rejects both `None` and `0`). -/
def portFalsy : Option Nat → Bool
  | none => true
  | some 0 => true
  | some (_ + 1) => false

/-- Content of the regenerated service file for a service whose first
declared port has node port `p`: the `AvahiServiceFile` built in
`create_service_record`, rendered by `to_xml`. -/
def svcFileContent (s : K8sService) (p : Option Nat) : String :=
  (AvahiServiceFile.mk (advertiseName s) "" (p.getD 0)
    (annGet (get_service_annotations s) "service-type" "_http._tcp")
    (txtRecordsOf s)).to_xml

/-- `create_service_record`: on an assigned node port, regenerate the whole
service file, update `managed_files`, `service_name_map` and the reload flag;
returns the conflict surfaced for logging. -/
def create_service_record (st : AdvState) (s : K8sService) : AdvState × Option String :=
  match s.ports.head? with
  | none => (st, none)
  | some p =>
    if portFalsy p then (st, none)
    else
      ({ st with
          serviceFiles := mapInsert st.serviceFiles (svcFilename s) (svcFileContent s p)
          managedFiles := setAdd st.managedFiles (svcFilename s)
          serviceNameMap := mapInsert st.serviceNameMap (svcFilename s) (svcKey s)
          needsReload := true }, conflictOn st.serviceNameMap (svcFilename s) (svcKey s))

/-- `remove_host_record`: prune matching managed lines and write back only
when the file shrank; the `hostname_map` entry is released only when this
ServiceRef is still the recorded owner. -/
def remove_host_record (st : AdvState) (s : K8sService) : AdvState :=
  if (pruneHostname st.hostsLines (hostName s)).length < st.hostsLines.length then
    { st with
        hostsLines := pruneHostname st.hostsLines (hostName s)
        managedHosts := setDiscard st.managedHosts (hostFqdn s)
        hostnameMap :=
          if mapLookup st.hostnameMap (hostFqdn s) = some (svcKey s) then
            mapErase st.hostnameMap (hostFqdn s)
          else st.hostnameMap
        needsReload := true }
  else st

/-- `remove_service_record`: delete the file if present (absence is a no-op);
the `service_name_map` entry is released only when this ServiceRef is still
the recorded owner. -/
def remove_service_record (st : AdvState) (s : K8sService) : AdvState :=
  if (mapLookup st.serviceFiles (svcFilename s)).isSome then
    { st with
        serviceFiles := mapErase st.serviceFiles (svcFilename s)
        managedFiles := setDiscard st.managedFiles (svcFilename s)
        serviceNameMap :=
          if mapLookup st.serviceNameMap (svcFilename s) = some (svcKey s) then
            mapErase st.serviceNameMap (svcFilename s)
          else st.serviceNameMap
        needsReload := true }
  else st

/-- `create_avahi_advertisement`: dispatch on `spec.type`. -/
def create_avahi_advertisement (st : AdvState) (s : K8sService) : AdvState × Option String :=
  if s.svcType = "LoadBalancer" then create_host_record st s
  else if s.svcType = "NodePort" then create_service_record st s
  else (st, none)

/-- `remove_avahi_advertisement`: dispatch on `spec.type` (services of any
other current type fall through both branches untouched). -/
def remove_avahi_advertisement (st : AdvState) (s : K8sService) : AdvState :=
  if s.svcType = "LoadBalancer" then remove_host_record st s
  else if s.svcType = "NodePort" then remove_service_record st s
  else st

/-- Watch event kinds. -/
inductive EventType
  | added
  | modified
  | deleted
deriving DecidableEq, Repr

/-- The event dispatch of the `watch_services` loop body. -/
def handleEvent (st : AdvState) (ev : EventType) (s : K8sService) : AdvState :=
  match ev with
  | .added | .modified =>
    if should_advertise s then (create_avahi_advertisement st s).1
    else remove_avahi_advertisement st s
  | .deleted => remove_avahi_advertisement st s

/-- Outcome of the external `systemctl reload avahi-daemon` call. -/
inductive ReloadOutcome
  | success
  | exitFailure
  | timedOut
  | raised
deriving DecidableEq, Repr

/-- `reload_avahi_daemon`: given the current `needs_reload` flag and the
outcome of the external call, returns (whether the call was invoked at all,
the new flag).  The flag is cleared only on return code 0; a nonzero exit,
a timeout or an exception all leave it set. -/
def reload_avahi_daemon (needsReload : Bool) (o : ReloadOutcome) : Bool × Bool :=
  if needsReload = false then (false, needsReload)
  else
    match o with
    | .success => (true, false)
    | .exitFailure => (true, true)
    | .timedOut => (true, true)
    | .raised => (true, true)

/-- Failure classes of the watch stream, per the `except` clauses of
`watch_services`: `ApiException` with status 410 (stale), any other
`ApiException` (transient), and any other exception. -/
inductive StreamError
  | staleWatch
  | apiTransient
  | unexpected
deriving DecidableEq, Repr

/-- What one `except` handler of `watch_services` does before the `while True`
loop re-enters the stream subscription. -/
structure LoopStep where
  exits : Bool
  sleepSeconds : Nat
deriving DecidableEq, Repr

/-- The error handling of `watch_services`: staleness `continue`s at once;
a transient API error or an unexpected exception sleeps 5 seconds; none of
them leaves the `while True` loop. -/
def watchErrorStep : StreamError → LoopStep
  | .staleWatch => ⟨false, 0⟩
  | .apiTransient => ⟨false, 5⟩
  | .unexpected => ⟨false, 5⟩

/-- `watch_services` modelled over a finite trace of stream iterations: each
iteration delivers some events and then fails with a stream error; returns
the final state and the loop step taken after each iteration. -/
def watch_services (st : AdvState) :
    List (List (EventType × K8sService) × StreamError) → AdvState × List LoopStep
  | [] => (st, [])
  | (evs, e) :: rest =>
    let st1 := evs.foldl (fun a p => handleEvent a p.1 p.2) st
    let next := watch_services st1 rest
    (next.1, watchErrorStep e :: next.2)

/-- The sublist of a file's lines not bearing the managed marker, in file
order (the lines the spec calls unmanaged / manually authored). -/
def unmanagedLines (lines : List String) : List String :=
  lines.filter (fun l => !(strContains l MANAGED_HOSTS_MARKER))

/-! ### Basic facts about the embedded operations -/

theorem marker_infix_hostEntry (ip h ns n : String) :
    MANAGED_HOSTS_MARKER.data <:+: (hostEntry ip h ns n).data := by
  refine ⟨(ip ++ " " ++ h ++ ".local ").data, (" (" ++ ns ++ "/" ++ n ++ ")\n").data, ?_⟩
  simp [hostEntry, String.data_append, List.append_assoc]

theorem hostname_infix_hostEntry (ip h ns n : String) :
    h.data <:+: (hostEntry ip h ns n).data := by
  refine ⟨(ip ++ " ").data, (".local " ++ MANAGED_HOSTS_MARKER ++ " (" ++ ns ++ "/" ++ n ++ ")\n").data, ?_⟩
  simp [hostEntry, String.data_append, List.append_assoc]

theorem strContains_hostEntry_marker (ip h ns n : String) :
    strContains (hostEntry ip h ns n) MANAGED_HOSTS_MARKER = true :=
  strContains_of_infix (marker_infix_hostEntry ip h ns n)

theorem strContains_hostEntry_of_infix {h' : String} (ip h ns n : String)
    (hinf : h'.data <:+: h.data) :
    strContains (hostEntry ip h ns n) h' = true :=
  strContains_of_infix (hinf.trans (hostname_infix_hostEntry ip h ns n))

theorem strContains_hostEntry_hostname (ip h ns n : String) :
    strContains (hostEntry ip h ns n) h = true :=
  strContains_hostEntry_of_infix ip h ns n (List.infix_refl _)

theorem pruneHostname_append (a b : List String) (h : String) :
    pruneHostname (a ++ b) h = pruneHostname a h ++ pruneHostname b h :=
  List.filter_append a b

theorem pruneHostname_hostEntry {h' : String} (ip h ns n : String)
    (hinf : h'.data <:+: h.data) :
    pruneHostname [hostEntry ip h ns n] h' = [] := by
  simp [pruneHostname, strContains_hostEntry_marker,
    strContains_hostEntry_of_infix ip h ns n hinf]

theorem pruneHostname_length_lt_append_hostEntry (Y : List String) (ip h ns n : String) :
    (pruneHostname (Y ++ [hostEntry ip h ns n]) h).length
      < (Y ++ [hostEntry ip h ns n]).length := by
  rw [pruneHostname_append, pruneHostname_hostEntry ip h ns n (List.infix_refl _)]
  simp only [List.append_nil, List.length_append, List.length_singleton]
  exact Nat.lt_succ_of_le (List.length_filter_le _ _)

theorem pruneHostname_idem (lines : List String) (h : String) :
    pruneHostname (pruneHostname lines h) h = pruneHostname lines h := by
  unfold pruneHostname
  rw [List.filter_eq_self]
  intro a ha
  exact (List.mem_filter.mp ha).2

theorem mapLookup_mapInsert_self (m : NameMap) (k v : String) :
    mapLookup (mapInsert m k v) k = some v := by
  induction m with
  | nil => simp [mapInsert, mapLookup]
  | cons kv rest ih =>
    obtain ⟨k', v'⟩ := kv
    by_cases h : k' = k
    · simp [mapInsert, mapLookup, h]
    · simp [mapInsert, mapLookup, h, ih]

theorem mapInsert_mapInsert_self (m : NameMap) (k v : String) :
    mapInsert (mapInsert m k v) k v = mapInsert m k v := by
  induction m with
  | nil => simp [mapInsert]
  | cons kv rest ih =>
    obtain ⟨k', v'⟩ := kv
    by_cases h : k' = k
    · simp [mapInsert, h]
    · simp [mapInsert, h, ih]

theorem mapInsert_mapInsert (m : NameMap) (k v w : String) :
    mapInsert (mapInsert m k v) k w = mapInsert m k w := by
  induction m with
  | nil => simp [mapInsert]
  | cons kv rest ih =>
    obtain ⟨k', v'⟩ := kv
    by_cases h : k' = k
    · simp [mapInsert, h]
    · simp [mapInsert, h, ih]

theorem mapErase_mapInsert (m : NameMap) (k v : String) (h : mapLookup m k = none) :
    mapErase (mapInsert m k v) k = m := by
  induction m with
  | nil => simp [mapInsert, mapErase]
  | cons kv rest ih =>
    obtain ⟨k', v'⟩ := kv
    by_cases hk : k' = k
    · simp [mapLookup, hk] at h
    · simp only [mapLookup, if_neg hk] at h
      simp [mapInsert, mapErase, hk, ih h]

theorem setAdd_idem (l : List String) (x : String) :
    setAdd (setAdd l x) x = setAdd l x := by
  by_cases h : x ∈ l
  · simp [setAdd, h]
  · simp [setAdd, h]

theorem unmanagedLines_pruneHostname (lines : List String) (h : String) :
    unmanagedLines (pruneHostname lines h) = unmanagedLines lines := by
  unfold unmanagedLines pruneHostname
  rw [List.filter_filter]
  apply List.filter_congr
  intro a _
  cases hm : strContains a MANAGED_HOSTS_MARKER <;> simp [hm]

theorem create_host_record_idem (st : AdvState) (s : K8sService) :
    (create_host_record (create_host_record st s).1 s).1 = (create_host_record st s).1 := by
  cases hip : s.ingress.head? with
  | none => simp [create_host_record, hip]
  | some ip =>
    simp [create_host_record, hip, pruneHostname_append, pruneHostname_idem,
      pruneHostname_hostEntry ip (hostName s) s.ns s.name (List.infix_refl _),
      mapInsert_mapInsert_self, setAdd_idem]

theorem create_service_record_idem (st : AdvState) (s : K8sService) :
    (create_service_record (create_service_record st s).1 s).1 = (create_service_record st s).1 := by
  cases hp : s.ports.head? with
  | none => simp [create_service_record, hp]
  | some p =>
    cases hf : portFalsy p with
    | true => simp [create_service_record, hp, hf]
    | false =>
      simp [create_service_record, hp, hf, mapInsert_mapInsert_self, setAdd_idem]

/-! ### Claim theorems -/

/-- C1 (amended): the lines filtered out of the address file when an entry is
updated or pruned are exactly the managed-marker lines that contain the target
hostname as a Python substring — not only those whose whole hostname token
equals it; consequently, when one hostname is a substring of another, the
other hostname's managed entry is also removed by the prune. -/
theorem C1_prune_substring_scoping :
    (∀ (lines : List String) (hostname l : String), l ∈ lines →
        (l ∉ pruneHostname lines hostname ↔
          (strContains l MANAGED_HOSTS_MARKER = true ∧ strContains l hostname = true)))
    ∧ (∀ (lines : List String) (h1 h2 ip ns n : String), h1.data <:+: h2.data →
        hostEntry ip h2 ns n ∉ pruneHostname lines h1) := by
  constructor
  · intro lines hostname l hl
    simp [pruneHostname, List.mem_filter, hl]
  · intro lines h1 h2 ip ns n hinf hmem
    have h := (List.mem_filter.mp hmem).2
    simp [strContains_hostEntry_marker,
      strContains_hostEntry_of_infix ip h2 ns n hinf] at h

/-- Witness for C1: pruning for hostname `shop` drops the managed entry of
`shop2` even though its hostname token differs. -/
theorem C1_prune_substring_scoping_witness :
    hostEntry "10.0.42.51" "shop2" "web" "shop2"
      ∉ pruneHostname [hostEntry "10.0.42.51" "shop2" "web" "shop2"] "shop" :=
  C1_prune_substring_scoping.2 _ "shop" "shop2" "10.0.42.51" "web" "shop2"
    (by decide)

/-- Counterexample to C1 as stated: with the address file holding only the
managed entry for `shop2.local` (owner `web/shop2`), reconciling LoadBalancer
service `web/shop` (hostname token `shop.local` ≠ `shop2.local`) rewrites the
file to `shop`'s entry alone — `shop2`'s managed line was altered by an update
for a different hostname. -/
theorem C1_counterexample :
    (create_host_record
        { emptyState with hostsLines := [hostEntry "10.0.42.51" "shop2" "web" "shop2"] }
        ⟨"shop", "web", "LoadBalancer", ["10.0.42.50"], [], []⟩).1.hostsLines
      = [hostEntry "10.0.42.50" "shop" "web" "shop"]
    ∧ ("shop2" : String) ≠ "shop" := by
  constructor
  · decide
  · decide

/-- C4: reconciling the same service state twice is idempotent — the second
application of `create_avahi_advertisement` leaves the whole state (hosts-file
lines, service-file contents, managed sets, ownership maps, reload flag)
exactly as after the first, so the artifact content is byte-identical. -/
theorem C4_idempotent (st : AdvState) (s : K8sService) :
    (create_avahi_advertisement (create_avahi_advertisement st s).1 s).1
      = (create_avahi_advertisement st s).1 := by
  by_cases hLB : s.svcType = "LoadBalancer"
  · simp [create_avahi_advertisement, hLB, create_host_record_idem]
  · by_cases hNP : s.svcType = "NodePort"
    · simp [create_avahi_advertisement, hLB, hNP, create_service_record_idem]
    · simp [create_avahi_advertisement, hLB, hNP]

/-- C8: every hosts-file mutation (create, update, remove of a managed entry)
carries every line not bearing the managed marker over to the written file
unchanged and in order — the unmanaged sublist of the result equals that of
the input. -/
theorem C8_frame_unmanaged_lines :
    (∀ (st : AdvState) (s : K8sService),
        unmanagedLines (create_host_record st s).1.hostsLines
          = unmanagedLines st.hostsLines)
    ∧ (∀ (st : AdvState) (s : K8sService),
        unmanagedLines (remove_host_record st s).hostsLines
          = unmanagedLines st.hostsLines) := by
  constructor
  · intro st s
    cases hip : s.ingress.head? with
    | none => simp [create_host_record, hip]
    | some ip =>
      simp only [create_host_record, hip]
      unfold unmanagedLines
      rw [List.filter_append]
      have hentry : (fun l => !(strContains l MANAGED_HOSTS_MARKER))
          (hostEntry ip (hostName s) s.ns s.name) = false := by
        simp [strContains_hostEntry_marker]
      simp only [List.filter_cons, List.filter_nil, hentry, if_false, Bool.false_eq_true,
        List.append_nil]
      exact unmanagedLines_pruneHostname st.hostsLines (hostName s)
  · intro st s
    unfold remove_host_record
    by_cases hlt : (pruneHostname st.hostsLines (hostName s)).length < st.hostsLines.length
    · simp only [if_pos hlt]
      exact unmanagedLines_pruneHostname st.hostsLines (hostName s)
    · simp [if_neg hlt]

/-- C2: when two distinct ServiceRefs compute the same advertised name
(hostname for host records, sanitized filename for service records), the
second reconciliation surfaces exactly the displaced owner for logging,
overwrites the claim with the new owner, leaves the artifact reflecting the
most recently reconciled service, and re-reconciling the same owner surfaces
no conflict. -/
theorem C2_conflict_last_writer_wins :
    (∀ (st : AdvState) (s1 s2 : K8sService) (ip1 ip2 : String),
        s1.ingress.head? = some ip1 →
        s2.ingress.head? = some ip2 →
        hostName s1 = hostName s2 →
        svcKey s1 ≠ svcKey s2 →
        ((create_host_record (create_host_record st s1).1 s2).2 = some (svcKey s1)
          ∧ mapLookup (create_host_record (create_host_record st s1).1 s2).1.hostnameMap
              (hostFqdn s2) = some (svcKey s2)
          ∧ (∀ l ∈ (create_host_record (create_host_record st s1).1 s2).1.hostsLines,
                strContains l MANAGED_HOSTS_MARKER = true →
                strContains l (hostName s2) = true →
                l = hostEntry ip2 (hostName s2) s2.ns s2.name)
          ∧ (create_host_record (create_host_record (create_host_record st s1).1 s2).1 s2).2
              = none))
    ∧ (∀ (st : AdvState) (s1 s2 : K8sService) (p1 p2 : Option Nat),
        s1.ports.head? = some p1 → portFalsy p1 = false →
        s2.ports.head? = some p2 → portFalsy p2 = false →
        svcFilename s1 = svcFilename s2 →
        svcKey s1 ≠ svcKey s2 →
        ((create_service_record (create_service_record st s1).1 s2).2 = some (svcKey s1)
          ∧ mapLookup (create_service_record (create_service_record st s1).1 s2).1.serviceNameMap
              (svcFilename s2) = some (svcKey s2)
          ∧ mapLookup (create_service_record (create_service_record st s1).1 s2).1.serviceFiles
              (svcFilename s2) = some (svcFileContent s2 p2)
          ∧ (create_service_record
              (create_service_record (create_service_record st s1).1 s2).1 s2).2 = none)) := by
  constructor
  · intro st s1 s2 ip1 ip2 hip1 hip2 hhn hkey
    have hfq : hostFqdn s1 = hostFqdn s2 := by unfold hostFqdn; rw [hhn]
    refine ⟨?_, ?_, ?_, ?_⟩
    · simp only [create_host_record, hip1, hip2, hfq]
      unfold conflictOn
      rw [mapLookup_mapInsert_self]
      simp [hkey]
    · simp only [create_host_record, hip1, hip2, hfq]
      rw [mapLookup_mapInsert_self]
    · intro l hmem hm hh
      simp only [create_host_record, hip1, hip2] at hmem
      rcases List.mem_append.mp hmem with hin | hin
      · have hp := (List.mem_filter.mp hin).2
        rw [hm, hh] at hp
        simp at hp
      · exact (List.mem_singleton.mp hin)
    · simp only [create_host_record, hip1, hip2, hfq]
      unfold conflictOn
      rw [mapLookup_mapInsert_self]
      simp
  · intro st s1 s2 p1 p2 hp1 hpf1 hp2 hpf2 hfn hkey
    refine ⟨?_, ?_, ?_, ?_⟩
    · simp only [create_service_record, hp1, hpf1, hp2, hpf2, hfn, Bool.false_eq_true,
        if_false]
      unfold conflictOn
      rw [mapLookup_mapInsert_self]
      simp [hkey]
    · simp only [create_service_record, hp1, hpf1, hp2, hpf2, hfn, Bool.false_eq_true,
        if_false]
      rw [mapLookup_mapInsert_self]
    · simp only [create_service_record, hp1, hpf1, hp2, hpf2, hfn, Bool.false_eq_true,
        if_false]
      rw [mapLookup_mapInsert_self]
    · simp only [create_service_record, hp1, hpf1, hp2, hpf2, hfn, Bool.false_eq_true,
        if_false]
      unfold conflictOn
      rw [mapLookup_mapInsert_self]
      simp

/-- Witness for C2: `web/shop` claims hostname `shop`, then `web/shop2`
(with a `name=shop` override) reconciles the same hostname; the displaced
owner `web/shop` is surfaced for the conflict log. -/
theorem C2_conflict_last_writer_wins_witness :
    (create_host_record
        (create_host_record emptyState
          ⟨"shop", "web", "LoadBalancer", ["10.0.42.50"], [], []⟩).1
        ⟨"shop2", "web", "LoadBalancer", ["10.0.42.51"], [],
          [("avahi.local/name", "shop")]⟩).2 = some "web/shop" :=
  (C2_conflict_last_writer_wins.1 emptyState
      ⟨"shop", "web", "LoadBalancer", ["10.0.42.50"], [], []⟩
      ⟨"shop2", "web", "LoadBalancer", ["10.0.42.51"], [],
        [("avahi.local/name", "shop")]⟩
      "10.0.42.50" "10.0.42.51" rfl rfl (by decide) (by decide)).1

/-- C3 (code-bug evaluation): a service that previously qualified as a
LoadBalancer and owns a managed hosts-file entry is modified to the
unsupported type `ClusterIP`; it no longer qualifies, yet reconciling the
Modified event leaves the state — managed entry included — completely
untouched, because `remove_avahi_advertisement` dispatches on the current
`spec.type` and has no branch for other kinds. -/
theorem C3_kind_change_artifact_persists :
    should_advertise ⟨"shop", "web", "ClusterIP", [], [], []⟩ = false
    ∧ handleEvent
        { emptyState with
            hostsLines := [hostEntry "10.0.42.50" "shop" "web" "shop"]
            managedHosts := ["shop.local"]
            hostnameMap := [("shop.local", "web/shop")] }
        .modified
        ⟨"shop", "web", "ClusterIP", [], [], []⟩
      = { emptyState with
            hostsLines := [hostEntry "10.0.42.50" "shop" "web" "shop"]
            managedHosts := ["shop.local"]
            hostnameMap := [("shop.local", "web/shop")] } := by
  exact ⟨by decide, by decide⟩

/-- C5: reconciling a deletion removes the artifact previously created for
the ServiceRef under the name computed at deletion time, and is a state-
preserving no-op — not an error — when no artifact matches that name
(in particular when the name-override annotation changed since creation). -/
theorem C5_deletion_law :
    (∀ (st : AdvState) (s : K8sService) (ip : String),
        s.ingress.head? = some ip →
        (hostEntry ip (hostName s) s.ns s.name
            ∉ (remove_host_record (create_host_record st s).1 s).hostsLines
          ∧ ∀ l ∈ (remove_host_record (create_host_record st s).1 s).hostsLines,
              ¬(strContains l MANAGED_HOSTS_MARKER = true
                ∧ strContains l (hostName s) = true)))
    ∧ (∀ (st : AdvState) (s : K8sService),
        (∀ l ∈ st.hostsLines,
            ¬(strContains l MANAGED_HOSTS_MARKER = true
              ∧ strContains l (hostName s) = true)) →
        remove_host_record st s = st)
    ∧ (∀ (st : AdvState) (s : K8sService) (p : Option Nat),
        s.ports.head? = some p → portFalsy p = false →
        mapLookup st.serviceFiles (svcFilename s) = none →
        mapLookup (remove_service_record (create_service_record st s).1 s).serviceFiles
            (svcFilename s) = none)
    ∧ (∀ (st : AdvState) (s : K8sService),
        mapLookup st.serviceFiles (svcFilename s) = none →
        remove_service_record st s = st) := by
  refine ⟨?_, ?_, ?_, ?_⟩
  · intro st s ip hip
    have h1 : (create_host_record st s).1.hostsLines
        = pruneHostname st.hostsLines (hostName s)
          ++ [hostEntry ip (hostName s) s.ns s.name] := by
      simp [create_host_record, hip]
    have hlen : (pruneHostname (create_host_record st s).1.hostsLines (hostName s)).length
        < (create_host_record st s).1.hostsLines.length := by
      rw [h1]
      exact pruneHostname_length_lt_append_hostEntry _ ip (hostName s) s.ns s.name
    have hline : (remove_host_record (create_host_record st s).1 s).hostsLines
        = pruneHostname (create_host_record st s).1.hostsLines (hostName s) := by
      unfold remove_host_record
      rw [if_pos hlen]
    constructor
    · intro hmem
      rw [hline] at hmem
      have hp := (List.mem_filter.mp hmem).2
      rw [strContains_hostEntry_marker, strContains_hostEntry_hostname] at hp
      simp at hp
    · intro l hmem hc
      rw [hline] at hmem
      have hp := (List.mem_filter.mp hmem).2
      rw [hc.1, hc.2] at hp
      simp at hp
  · intro st s hall
    have heq : pruneHostname st.hostsLines (hostName s) = st.hostsLines := by
      unfold pruneHostname
      rw [List.filter_eq_self]
      intro a ha
      cases hm : strContains a MANAGED_HOSTS_MARKER
      · simp [hm]
      · cases hh : strContains a (hostName s)
        · simp [hm, hh]
        · exact absurd ⟨hm, hh⟩ (hall a ha)
    unfold remove_host_record
    rw [heq]
    simp
  · intro st s p hp hpf hnone
    have hsf : (create_service_record st s).1.serviceFiles
        = mapInsert st.serviceFiles (svcFilename s) (svcFileContent s p) := by
      simp [create_service_record, hp, hpf]
    unfold remove_service_record
    rw [hsf, mapLookup_mapInsert_self]
    simp [mapErase_mapInsert _ _ _ hnone, hnone]
  · intro st s hnone
    unfold remove_service_record
    simp [hnone]

/-- Witness for C5: creating then deleting LoadBalancer `web/shop` leaves no
managed line for it in the hosts file. -/
theorem C5_deletion_law_witness :
    hostEntry "10.0.42.50" "shop" "web" "shop"
      ∉ (remove_host_record
          (create_host_record emptyState
            ⟨"shop", "web", "LoadBalancer", ["10.0.42.50"], [], []⟩).1
          ⟨"shop", "web", "LoadBalancer", ["10.0.42.50"], [], []⟩).hostsLines :=
  (C5_deletion_law.1 emptyState
      ⟨"shop", "web", "LoadBalancer", ["10.0.42.50"], [], []⟩ "10.0.42.50" rfl).1

/-- C6: the in-memory claim release is ownership-guarded — a removal issued
by a ServiceRef that is no longer the recorded owner of the advertised name
leaves the newer owner's map entry intact, for both the hostname map and the
service-name map. -/
theorem C6_release_ownership_guard :
    (∀ (st : AdvState) (s : K8sService) (newOwner : String),
        mapLookup st.hostnameMap (hostFqdn s) = some newOwner →
        svcKey s ≠ newOwner →
        (remove_host_record st s).hostnameMap = st.hostnameMap)
    ∧ (∀ (st : AdvState) (s : K8sService) (newOwner : String),
        mapLookup st.serviceNameMap (svcFilename s) = some newOwner →
        svcKey s ≠ newOwner →
        (remove_service_record st s).serviceNameMap = st.serviceNameMap) := by
  constructor
  · intro st s newOwner hmap hne
    unfold remove_host_record
    have hguard : ¬ (mapLookup st.hostnameMap (hostFqdn s) = some (svcKey s)) := by
      rw [hmap]
      intro hc
      exact hne (Option.some.inj hc).symm
    by_cases hlt : (pruneHostname st.hostsLines (hostName s)).length < st.hostsLines.length
    · simp [if_pos hlt, hguard]
    · simp [if_neg hlt]
  · intro st s newOwner hmap hne
    unfold remove_service_record
    have hguard : ¬ (mapLookup st.serviceNameMap (svcFilename s) = some (svcKey s)) := by
      rw [hmap]
      intro hc
      exact hne (Option.some.inj hc).symm
    by_cases hex : (mapLookup st.serviceFiles (svcFilename s)).isSome = true
    · simp [hex, hguard]
    · simp [hex]

/-- Witness for C6: after `web/shop2` took over `shop.local`, a stale removal
by `web/shop` leaves the hostname map pointing at `web/shop2`. -/
theorem C6_release_ownership_guard_witness :
    (remove_host_record
        { emptyState with
            hostsLines := [hostEntry "10.0.42.51" "shop" "web" "shop2"]
            hostnameMap := [("shop.local", "web/shop2")] }
        ⟨"shop", "web", "LoadBalancer", [], [], []⟩).hostnameMap
      = [("shop.local", "web/shop2")] :=
  C6_release_ownership_guard.1
    { emptyState with
        hostsLines := [hostEntry "10.0.42.51" "shop" "web" "shop2"]
        hostnameMap := [("shop.local", "web/shop2")] }
    ⟨"shop", "web", "LoadBalancer", [], [], []⟩ "web/shop2" rfl (by decide)

/-- C7: the reload flag is set by every artifact mutation; `reload_avahi_daemon`
does nothing when the flag is clear, invokes the external reload whenever it
is set, clears it only on a zero exit code, and leaves it set on a nonzero
exit, a timeout or an exception. -/
theorem C7_reload_flag :
    (∀ o, reload_avahi_daemon false o = (false, false))
    ∧ (∀ o, (reload_avahi_daemon true o).1 = true)
    ∧ (reload_avahi_daemon true ReloadOutcome.success).2 = false
    ∧ (∀ o, o ≠ ReloadOutcome.success → (reload_avahi_daemon true o).2 = true)
    ∧ (∀ (st : AdvState) (s : K8sService) (ip : String),
        s.ingress.head? = some ip → (create_host_record st s).1.needsReload = true)
    ∧ (∀ (st : AdvState) (s : K8sService) (p : Option Nat),
        s.ports.head? = some p → portFalsy p = false →
        (create_service_record st s).1.needsReload = true)
    ∧ (∀ (st : AdvState) (s : K8sService),
        (pruneHostname st.hostsLines (hostName s)).length < st.hostsLines.length →
        (remove_host_record st s).needsReload = true)
    ∧ (∀ (st : AdvState) (s : K8sService),
        (mapLookup st.serviceFiles (svcFilename s)).isSome = true →
        (remove_service_record st s).needsReload = true) := by
  refine ⟨?_, ?_, rfl, ?_, ?_, ?_, ?_, ?_⟩
  · intro o; cases o <;> rfl
  · intro o; cases o <;> rfl
  · intro o ho; cases o with
    | success => exact absurd rfl ho
    | exitFailure => rfl
    | timedOut => rfl
    | raised => rfl
  · intro st s ip hip
    simp [create_host_record, hip]
  · intro st s p hp hpf
    simp [create_service_record, hp, hpf]
  · intro st s hlt
    unfold remove_host_record
    simp [if_pos hlt]
  · intro st s hex
    unfold remove_service_record
    simp [hex]

/-- Witness for C7: a failed reload leaves the flag set, and creating a host
record sets it. -/
theorem C7_reload_flag_witness :
    (reload_avahi_daemon true ReloadOutcome.exitFailure).2 = true
    ∧ (create_host_record emptyState
        ⟨"shop", "web", "LoadBalancer", ["10.0.42.50"], [], []⟩).1.needsReload = true :=
  ⟨C7_reload_flag.2.2.2.1 ReloadOutcome.exitFailure (by decide),
   C7_reload_flag.2.2.2.2.1 emptyState
     ⟨"shop", "web", "LoadBalancer", ["10.0.42.50"], [], []⟩ "10.0.42.50" rfl⟩

/-- C9: the watch loop processes every iteration of its input trace — no
stream failure terminates it — and the error handler resubscribes with no
sleep on staleness and a fixed 5-second backoff on any other stream error. -/
theorem C9_watch_loop_resilient :
    (∀ (st : AdvState) (trace : List (List (EventType × K8sService) × StreamError)),
        (watch_services st trace).2.length = trace.length)
    ∧ (∀ e, (watchErrorStep e).exits = false)
    ∧ (watchErrorStep StreamError.staleWatch).sleepSeconds = 0
    ∧ (∀ e, e ≠ StreamError.staleWatch → (watchErrorStep e).sleepSeconds = 5) := by
  refine ⟨?_, ?_, rfl, ?_⟩
  · intro st trace
    induction trace generalizing st with
    | nil => rfl
    | cons it rest ih => simp [watch_services, ih]
  · intro e; cases e <;> rfl
  · intro e he; cases e with
    | staleWatch => exact absurd rfl he
    | apiTransient => rfl
    | unexpected => rfl

/-- Witness for C9: a transient API error sleeps 5 seconds and the loop goes
on with the rest of the trace. -/
theorem C9_watch_loop_resilient_witness :
    (watchErrorStep StreamError.apiTransient).sleepSeconds = 5
    ∧ (watch_services emptyState
        [([], StreamError.staleWatch), ([], StreamError.unexpected)]).2.length = 2 :=
  ⟨C9_watch_loop_resilient.2.2.2 StreamError.apiTransient (by decide),
   C9_watch_loop_resilient.1 emptyState
     [([], StreamError.staleWatch), ([], StreamError.unexpected)]⟩

/-- C10: file-level removal ignores ownership while the claim release is
guarded — after `s2` displaces `s1` on the same hostname, a Deleted event for
`s1` destroys `s2`'s managed hosts-file line (no managed line for the
hostname survives), yet the hostname map still records `s2` as owner, leaving
map and artifact divergent; the service-record path diverges the same way. -/
theorem C10_stale_delete_divergence :
    (∀ (st : AdvState) (s1 s2 : K8sService) (ip1 ip2 : String),
        s1.ingress.head? = some ip1 →
        s2.ingress.head? = some ip2 →
        hostName s1 = hostName s2 →
        svcKey s1 ≠ svcKey s2 →
        (hostEntry ip2 (hostName s2) s2.ns s2.name
            ∉ (remove_host_record
                (create_host_record (create_host_record st s1).1 s2).1 s1).hostsLines
          ∧ mapLookup (remove_host_record
                (create_host_record (create_host_record st s1).1 s2).1 s1).hostnameMap
              (hostFqdn s2) = some (svcKey s2)))
    ∧ (∀ (st : AdvState) (s1 s2 : K8sService) (p1 p2 : Option Nat),
        s1.ports.head? = some p1 → portFalsy p1 = false →
        s2.ports.head? = some p2 → portFalsy p2 = false →
        svcFilename s1 = svcFilename s2 →
        svcKey s1 ≠ svcKey s2 →
        mapLookup st.serviceFiles (svcFilename s1) = none →
        (mapLookup (remove_service_record
              (create_service_record (create_service_record st s1).1 s2).1 s1).serviceFiles
            (svcFilename s2) = none
          ∧ mapLookup (remove_service_record
                (create_service_record (create_service_record st s1).1 s2).1 s1).serviceNameMap
              (svcFilename s2) = some (svcKey s2))) := by
  constructor
  · intro st s1 s2 ip1 ip2 hip1 hip2 hhn hkey
    have hfq : hostFqdn s1 = hostFqdn s2 := by unfold hostFqdn; rw [hhn]
    have hmap2 : (create_host_record (create_host_record st s1).1 s2).1.hostnameMap
        = mapInsert (mapInsert st.hostnameMap (hostFqdn s1) (svcKey s1)) (hostFqdn s2)
            (svcKey s2) := by
      simp [create_host_record, hip1, hip2]
    have hlines2 : (create_host_record (create_host_record st s1).1 s2).1.hostsLines
        = pruneHostname
              (pruneHostname st.hostsLines (hostName s1)
                ++ [hostEntry ip1 (hostName s1) s1.ns s1.name]) (hostName s2)
            ++ [hostEntry ip2 (hostName s2) s2.ns s2.name] := by
      simp [create_host_record, hip1, hip2]
    have hlen : (pruneHostname
          (create_host_record (create_host_record st s1).1 s2).1.hostsLines
          (hostName s1)).length
        < (create_host_record (create_host_record st s1).1 s2).1.hostsLines.length := by
      rw [hlines2, hhn]
      exact pruneHostname_length_lt_append_hostEntry _ ip2 (hostName s2) s2.ns s2.name
    have hguard : ¬ (mapLookup
          (create_host_record (create_host_record st s1).1 s2).1.hostnameMap
          (hostFqdn s1) = some (svcKey s1)) := by
      rw [hmap2, hfq, mapLookup_mapInsert_self]
      intro hc
      exact hkey (Option.some.inj hc).symm
    constructor
    · intro hmem
      unfold remove_host_record at hmem
      rw [if_pos hlen] at hmem
      have hp := (List.mem_filter.mp hmem).2
      rw [hhn, strContains_hostEntry_marker, strContains_hostEntry_hostname] at hp
      simp at hp
    · unfold remove_host_record
      rw [if_pos hlen]
      simp only [hguard, if_false]
      rw [hmap2, mapLookup_mapInsert_self]
  · intro st s1 s2 p1 p2 hp1 hpf1 hp2 hpf2 hfn hkey hnone
    have hsf2 : (create_service_record (create_service_record st s1).1 s2).1.serviceFiles
        = mapInsert (mapInsert st.serviceFiles (svcFilename s1) (svcFileContent s1 p1))
            (svcFilename s2) (svcFileContent s2 p2) := by
      simp [create_service_record, hp1, hpf1, hp2, hpf2]
    have hnm2 : (create_service_record (create_service_record st s1).1 s2).1.serviceNameMap
        = mapInsert (mapInsert st.serviceNameMap (svcFilename s1) (svcKey s1))
            (svcFilename s2) (svcKey s2) := by
      simp [create_service_record, hp1, hpf1, hp2, hpf2]
    have hins : mapInsert (mapInsert st.serviceFiles (svcFilename s1) (svcFileContent s1 p1))
          (svcFilename s2) (svcFileContent s2 p2)
        = mapInsert st.serviceFiles (svcFilename s1) (svcFileContent s2 p2) := by
      rw [← hfn]
      exact mapInsert_mapInsert st.serviceFiles (svcFilename s1) _ _
    have hex : (mapLookup
          (create_service_record (create_service_record st s1).1 s2).1.serviceFiles
          (svcFilename s1)).isSome = true := by
      rw [hsf2, hins, mapLookup_mapInsert_self]
      rfl
    have hguard : ¬ (mapLookup
          (create_service_record (create_service_record st s1).1 s2).1.serviceNameMap
          (svcFilename s1) = some (svcKey s1)) := by
      rw [hnm2, ← hfn, mapLookup_mapInsert_self]
      intro hc
      exact hkey (Option.some.inj hc).symm
    constructor
    · unfold remove_service_record
      rw [if_pos hex]
      rw [hsf2, hins, ← hfn, mapErase_mapInsert _ _ _ hnone]
      exact hnone
    · unfold remove_service_record
      rw [if_pos hex]
      simp only [hguard, if_false]
      rw [hnm2, mapLookup_mapInsert_self]

/-- Witness for C10: after `web/shop2` (override `name=shop`) displaced
`web/shop`, a stale Deleted event for `web/shop` still leaves the hostname
map recording `web/shop2` — while its hosts-file line is gone. -/
theorem C10_stale_delete_divergence_witness :
    mapLookup
        (remove_host_record
          (create_host_record
            (create_host_record emptyState
              ⟨"shop", "web", "LoadBalancer", ["10.0.42.50"], [], []⟩).1
            ⟨"shop2", "web", "LoadBalancer", ["10.0.42.51"], [],
              [("avahi.local/name", "shop")]⟩).1
          ⟨"shop", "web", "LoadBalancer", ["10.0.42.50"], [], []⟩).hostnameMap
        "shop.local"
      = some "web/shop2" :=
  (C10_stale_delete_divergence.1 emptyState
      ⟨"shop", "web", "LoadBalancer", ["10.0.42.50"], [], []⟩
      ⟨"shop2", "web", "LoadBalancer", ["10.0.42.51"], [],
        [("avahi.local/name", "shop")]⟩
      "10.0.42.50" "10.0.42.51" rfl rfl (by decide) (by decide)).2

end Avahi
